import Mathlib

/-!
# Formal model of `RJPEG.py` (csalvaggio/flir)

A shallow embedding of the radiometric-JPEG pipeline in `src/RJPEG.py`:

* the per-pixel radiance arithmetic of
  `RJPEG._compute_radiance_using_embedded_flir_approach` (lines 179-204),
* the missing-metadata-key behaviour of the same method (lines 188-192),
* the call made by `RJPEG.__init__` to
  `RJPEG._compute_radiance_using_calibration_coefficients` (lines 42-45, 206-207),
* the empty-blob branch and the byte-order normalization of
  `RJPEG._extract_embedded_raw_thermal_image` (lines 133-157),
* the `src.`-instead-of-`self.` guards of `write_rgb`, `write_raw_counts`
  and `write_radiance` (lines 117-130, 163-176, 213-226).

Modelling conventions:

* NumPy float arithmetic is modelled exactly over `ℚ`.  Every concrete input
  used in a counterexample or witness below involves only integers below
  `2 ^ 24` and exact quotients, all of which IEEE-754 float32 represents and
  computes exactly, so on those inputs the rational model coincides bit for
  bit with the float32 evaluation.
* NumPy's NaN sentinel is modelled as `Option.none`: the source writes
  `denominator[bad_pixels] = np.nan`, after which `R1 / nan - F` is NaN, so a
  pixel's radiance is either a real number (`some`) or NaN (`none`).
* Python exceptions are modelled with `Except PyError`; an `Except.error`
  value is an exception propagating out of the modelled code.
* The external collaborators (exiftool invocation, PIL container decoding,
  TIFF writing) are parameters or elided payloads; the numeric pipeline and
  control flow of `RJPEG.py` itself are modelled from the source.
-/

/-- Python exceptions that the modelled code can raise.
`keyError` is `dict[missing_key]` (line 189-192), `typeError` is a
call-arity mismatch (lines 42-45 versus 206), `nameError` is an undefined
global name (`src` at lines 118, 164, 214). -/
inductive PyError where
  | keyError (key : String)
  | typeError (msg : String)
  | nameError (name : String)
  deriving DecidableEq, Repr

/-- Line 194: `raw_counts = (2**16 - 1) - O - self._raw_counts`.
NumPy broadcasts the scalar `65535 - O` over the `uint16` array, giving a
float array with value `65535 - O - c` at a pixel of count `c`. -/
def invertedCount (O c : ℚ) : ℚ := (2 ^ 16 - 1) - O - c

/-- Lines 196-197: `denominator = R2 * (raw_counts + O)` with
`raw_counts = 65535 - O - c`, i.e. `R2 * ((65535 - O - c) + O)`.
Note the source subtracts `O` in the inversion and adds it back here, so
mathematically the denominator is `R2 * (65535 - c)`. -/
def denominatorAt (R2 O c : ℚ) : ℚ := R2 * (invertedCount O c + O)

/-- Lines 196-202, per pixel: pixels with `denominator <= 0` are set to NaN
(modelled `none`); the rest get `R1 / denominator - F` (modelled `some`). -/
def radianceAt (R1 R2 O F c : ℚ) : Option ℚ :=
  if denominatorAt R2 O c ≤ 0 then none
  else some (R1 / denominatorAt R2 O c - F)

/-- Lines 194-202 over the whole grid: NumPy applies the per-pixel formula
elementwise to the 2-D `uint16` count array. -/
def reconstructGrid (R1 R2 O F : ℚ) (g : List (List ℕ)) : List (List (Option ℚ)) :=
  g.map (fun row => row.map (fun c => radianceAt R1 R2 O F (c : ℚ)))

/-- Line 189-192: `float(self._metadata["PlanckR1"])` etc.  A missing key
raises `KeyError(key)`; a present numeric value is used as-is (exiftool is
run with `-n`, so Planck values are numeric and `float` is the identity on
them at this abstraction). -/
def getPlanck (meta : List (String × ℚ)) (key : String) : Except PyError ℚ :=
  match meta.lookup key with
  | some v => Except.ok v
  | none => Except.error (PyError.keyError key)

/-- `RJPEG._compute_radiance_using_embedded_flir_approach` (lines 179-204).
Reads only `self._metadata` and `self._raw_counts`, here explicit arguments;
returns the value stored into `self._radiance`.  With `self._raw_counts`
absent the method stores `None` (line 204) and never touches the metadata;
otherwise it fetches `PlanckR1`, `PlanckR2`, `PlanckO`, `PlanckF` in that
order (lines 189-192) before any per-pixel arithmetic (lines 194-202). -/
def compute_radiance_using_embedded_flir_approach
    (meta : List (String × ℚ)) (rawCounts : Option (List (List ℕ))) :
    Except PyError (Option (List (List (Option ℚ)))) :=
  match rawCounts with
  | none => Except.ok none
  | some g =>
    match getPlanck meta "PlanckR1" with
    | Except.error e => Except.error e
    | Except.ok R1 =>
      match getPlanck meta "PlanckR2" with
      | Except.error e => Except.error e
      | Except.ok R2 =>
        match getPlanck meta "PlanckO" with
        | Except.error e => Except.error e
        | Except.ok O =>
          match getPlanck meta "PlanckF" with
          | Except.error e => Except.error e
          | Except.ok F => Except.ok (some (reconstructGrid R1 R2 O F g))

/-- Modelled from the spec's words (for comparison with `denominatorAt`):
step 1 `c' = 65535 - c`, step 2 `denominator = R2 * (c' + O)`. -/
def specDenominator (R2 O c : ℚ) : ℚ := R2 * ((65535 - c) + O)

/-- Modelled from the spec's words (for comparison with `radianceAt`):
non-positive denominator gives the NaN sentinel, otherwise
`radiance = R1 / denominator - F`. -/
def specRadiance (R1 R2 O F c : ℚ) : Option ℚ :=
  if specDenominator R2 O c ≤ 0 then none
  else some (R1 / specDenominator R2 O c - F)

/-- One unit in the last place of a float32 in the binade `[1, 2)`,
`2 ^ (-23)`; the claim C1 measures agreement "within one ULP". -/
def float32UlpOfOne : ℚ := 1 / 2 ^ 23

/-- `sys.byteorder` of the host: `'little'` or `'big'`. -/
inductive HostOrder where
  | little
  | big
  deriving DecidableEq, Repr

/-- A NumPy dtype byte order: `'<'` (little), `'>'` (big) or `'='` (native,
also what `|`-style orderless dtypes report for this purpose: the source's
swap test at lines 151-153 compares only against `'>'` and `'<'`). -/
inductive DtypeOrder where
  | little
  | big
  | native
  deriving DecidableEq, Repr

/-- One 16-bit sample as physically stored: its first and second byte. -/
abbrev Sample : Type := Fin 256 × Fin 256

/-- Value of a stored sample read big-endian (first byte is most
significant). -/
def valueBE (s : Sample) : ℕ := 256 * s.1.val + s.2.val

/-- Value of a stored sample read little-endian (first byte is least
significant). -/
def valueLE (s : Sample) : ℕ := s.1.val + 256 * s.2.val

/-- The dtype order a given host resolves `'='` to. -/
def resolveOrder (host : HostOrder) : DtypeOrder → DtypeOrder
  | DtypeOrder.native => match host with
    | HostOrder.little => DtypeOrder.little
    | HostOrder.big => DtypeOrder.big
  | o => o

/-- The numerical value of a stored sample under a dtype order on a host. -/
def sampleValue (host : HostOrder) (order : DtypeOrder) (s : Sample) : ℕ :=
  match resolveOrder host order with
  | DtypeOrder.big => valueBE s
  | _ => valueLE s

/-- The decoded raw thermal array as NumPy holds it: the stored byte pairs
of its (row-major, here flattened) `uint16` samples, plus its dtype's byte
order. -/
structure RawImage where
  bytes : List Sample
  order : DtypeOrder
  deriving DecidableEq, Repr

/-- The logical sample values of a decoded image on a host: each stored
byte pair interpreted under the image's dtype order. -/
def logicalValues (host : HostOrder) (img : RawImage) : List ℕ :=
  img.bytes.map (sampleValue host img.order)

/-- `img.byteswap()` (line 155): swap the two bytes of every sample,
leaving the dtype unchanged. -/
def byteswapSample (s : Sample) : Sample := (s.2, s.1)

/-- `.newbyteorder()` (line 155): flip the dtype's byte order label.  The
source only reaches this call on an explicitly `'>'` or `'<'` dtype
(`needs_swapped` is `False` for `'='`), so the `native` case is inert
here. -/
def newByteOrder : DtypeOrder → DtypeOrder
  | DtypeOrder.little => DtypeOrder.big
  | DtypeOrder.big => DtypeOrder.little
  | DtypeOrder.native => DtypeOrder.native

/-- Lines 150-153: `needs_swapped = (byte_order == '>' and sys.byteorder ==
'little') or (byte_order == '<' and sys.byteorder == 'big')`. -/
def needsSwapped (host : HostOrder) (order : DtypeOrder) : Bool :=
  (order == DtypeOrder.big && host == HostOrder.little) ||
    (order == DtypeOrder.little && host == HostOrder.big)

/-- Lines 150-157: byte-order normalization of the decoded image,
`img = img.byteswap().newbyteorder()` when `needs_swapped`. -/
def normalizeByteOrder (host : HostOrder) (img : RawImage) : RawImage :=
  if needsSwapped host img.order then
    { bytes := img.bytes.map byteswapSample, order := newByteOrder img.order }
  else img

/-- `RJPEG._extract_embedded_raw_thermal_image` (lines 133-157) after the
exiftool call: `blob = result.stdout`; an empty blob returns `None`
(lines 142-143), otherwise PIL decodes the blob (modelled by the collaborator
parameter `pilDecode`, which also covers the `astype(np.uint16)` bit-width
cast of lines 147-148) and the byte order is normalized (lines 150-157). -/
def extract_embedded_raw_thermal_image (pilDecode : List ℕ → RawImage)
    (host : HostOrder) (blob : List ℕ) : Except PyError (Option RawImage) :=
  if blob = [] then Except.ok none
  else Except.ok (some (normalizeByteOrder host (pilDecode blob)))

/-- The attributes of an `RJPEG` object that the modelled methods read:
`_rgb`, `_raw_counts` and `_radiance` (each `None` or an array; payloads of
`_rgb` are irrelevant to the modelled claims and elided to shape data). -/
structure RJPEGState where
  rgb : Option (List (List ℕ))
  raw_counts : Option (List (List ℕ))
  radiance : Option (List (List (Option ℚ)))
  deriving Repr

/-- A Python call to `RJPEG._compute_radiance_using_calibration_coefficients`
with the given positional arguments beyond `self`.  The method is declared
as `def _compute_radiance_using_calibration_coefficients(self) -> None:`
(line 206), so any extra positional argument raises `TypeError` before the
body runs; with no extra argument the body sets `self._radiance = None`
(line 207), returned here. -/
def compute_radiance_using_calibration_coefficients_call
    (args : List (List ℚ)) : Except PyError (Option (List (List (Option ℚ)))) :=
  if args.length = 0 then Except.ok none
  else
    Except.error (PyError.typeError
      "_compute_radiance_using_calibration_coefficients() takes 1 positional argument but 2 were given")

/-- `RJPEG.__init__` (lines 17-47) after its external-collaborator steps:
the exiftool/path checks and the metadata, RGB and raw-thermal extractions
supply `meta`, `rgb` and `rawCounts`; then (lines 42-47) a non-`None`
`calibration_coefficients` is passed to
`self._compute_radiance_using_calibration_coefficients(calibration_coefficients)`,
otherwise `self._compute_radiance_using_embedded_flir_approach()` runs. -/
def RJPEG_init (meta : List (String × ℚ)) (rgb : Option (List (List ℕ)))
    (rawCounts : Option (List (List ℕ))) (calib : Option (List ℚ)) :
    Except PyError RJPEGState :=
  match calib with
  | some c =>
    match compute_radiance_using_calibration_coefficients_call [c] with
    | Except.error e => Except.error e
    | Except.ok rad => Except.ok ⟨rgb, rawCounts, rad⟩
  | none =>
    match compute_radiance_using_embedded_flir_approach meta rawCounts with
    | Except.error e => Except.error e
    | Except.ok rad => Except.ok ⟨rgb, rawCounts, rad⟩

/-- A filesystem path as `pathlib.Path` splits it: everything up to the last
extension (`stem`, with any parent directories), and the extension
(`suffix`, empty or starting with a dot). -/
structure PyPath where
  stem : String
  suffix : String
  deriving DecidableEq, Repr

/-- Lines 122-125 (and identically 168-171, 218-221): lowercase the suffix;
if it is not `.tif` or `.tiff`, replace the suffix with `.tif` (keeping the
original path, original case included, otherwise). -/
def withTifExt (p : PyPath) : PyPath :=
  if p.suffix.toLower = ".tif" ∨ p.suffix.toLower = ".tiff" then p
  else { p with suffix := ".tif" }

/-- `RJPEG.write_rgb` (lines 117-130).  Its guard reads `src._rgb`, where
`src` is a module-level global (defined only by the `__main__` harness at
line 264), not `self`; `globalSrc` is that global's binding (`none` when no
global `src` exists, in which case evaluating `src` raises `NameError`
before anything is written).  On a write the saved array is `self._rgb`
(line 126); the result lists the paths written. -/
def write_rgb (globalSrc : Option RJPEGState) (self : RJPEGState)
    (path : PyPath) : Except PyError (List PyPath) :=
  match globalSrc with
  | none => Except.error (PyError.nameError "src")
  | some src =>
    if src.rgb.isSome then Except.ok [withTifExt path]
    else Except.ok []

/-- `RJPEG.write_raw_counts` (lines 163-176); guard reads `src._raw_counts`
(line 164) with `src` a module-level global, writes `self._raw_counts`. -/
def write_raw_counts (globalSrc : Option RJPEGState) (self : RJPEGState)
    (path : PyPath) : Except PyError (List PyPath) :=
  match globalSrc with
  | none => Except.error (PyError.nameError "src")
  | some src =>
    if src.raw_counts.isSome then Except.ok [withTifExt path]
    else Except.ok []

/-- `RJPEG.write_radiance` (lines 213-226); guard reads `src._radiance`
(line 214) with `src` a module-level global, writes `self._radiance`. -/
def write_radiance (globalSrc : Option RJPEGState) (self : RJPEGState)
    (path : PyPath) : Except PyError (List PyPath) :=
  match globalSrc with
  | none => Except.error (PyError.nameError "src")
  | some src =>
    if src.radiance.isSome then Except.ok [withTifExt path]
    else Except.ok []

/-! ## Helper lemmas -/

/-- A sample whose big-endian reading equals another sample's little-endian
reading is that other sample with its bytes swapped. -/
lemma byteswapSample_eq_of_valueBE_eq_valueLE (s t : Sample)
    (h : valueBE s = valueLE t) : byteswapSample s = t := by
  obtain ⟨a, b⟩ := s
  obtain ⟨c, d⟩ := t
  simp only [valueBE, valueLE] at h
  have ha := a.isLt
  have hb := b.isLt
  have hc := c.isLt
  have hd := d.isLt
  have h1 : b.val = c.val := by omega
  have h2 : a.val = d.val := by omega
  simp only [byteswapSample, Prod.mk.injEq]
  exact ⟨Fin.ext h1, Fin.ext h2⟩

/-- Listwise version: if the big-endian readings of one byte list equal the
little-endian readings of another, byte-swapping the first yields the
second. -/
lemma map_byteswap_eq_of_values (l1 l2 : List Sample)
    (h : l1.map valueBE = l2.map valueLE) : l1.map byteswapSample = l2 := by
  induction l1 generalizing l2 with
  | nil => cases l2 <;> simp_all
  | cons s l ih =>
    cases l2 with
    | nil => simp at h
    | cons t m =>
      simp only [List.map_cons, List.cons.injEq] at h ⊢
      exact ⟨byteswapSample_eq_of_valueBE_eq_valueLE s t h.1, ih m h.2⟩

/-- Mirror image of `map_byteswap_eq_of_values`. -/
lemma eq_map_byteswap_of_values (l1 l2 : List Sample)
    (h : l1.map valueBE = l2.map valueLE) : l1 = l2.map byteswapSample := by
  rw [← map_byteswap_eq_of_values l1 l2 h, List.map_map]
  simp [Function.comp_def, byteswapSample]

/-! ## The claims -/

/-- C1 counterexample.  At `R1 = 131070`, `R2 = 1`, `O = 65535`, `F = 0`,
`c = 0` the spec's denominator `R2 * ((65535 - c) + O) = 131070` is
positive and the spec's formula gives `131070 / 131070 - 0 = 1`, but the
code computes `2`: its inversion step already subtracted `O`, so its
denominator is `65535`.  Every quantity involved is an integer below
`2 ^ 24` or an exact quotient of such integers, so IEEE-754 float32
evaluates both expressions exactly; the difference `1` exceeds one ULP
(`2 ^ (-23)` at this magnitude). -/
theorem radiance_valid_pixel_spec_counterexample :
    0 < specDenominator 1 65535 0 ∧
      specRadiance 131070 1 65535 0 0 = some 1 ∧
      radianceAt 131070 1 65535 0 0 = some 2 ∧
      ¬((2 : ℚ) - 1 ≤ float32UlpOfOne) := by
  refine ⟨by norm_num [specDenominator], by norm_num [specRadiance, specDenominator],
    by norm_num [radianceAt, denominatorAt, invertedCount], by norm_num [float32UlpOfOne]⟩

/-- C1 (amended): for every pixel whose denominator as the code computes it,
`R2 * ((65535 - O - c) + O)`, is positive, the reconstructed radiance equals
`R1 / (R2 * (65535 - c)) - F` (the `O` subtracted by the inversion step at
line 194 cancels the `+ O` of line 197, so the spec's
`R1 / (R2 * ((65535 - c) + O)) - F` is only obtained when `O = 0`). -/
theorem radiance_valid_pixel_formula (R1 R2 O F c : ℚ)
    (h : 0 < denominatorAt R2 O c) :
    radianceAt R1 R2 O F c = some (R1 / (R2 * (65535 - c)) - F) := by
  have hd : denominatorAt R2 O c = R2 * (65535 - c) := by
    simp only [denominatorAt, invertedCount]
    ring
  unfold radianceAt
  rw [if_neg (not_le.mpr h), hd]

/-- Witness for C1's amended theorem at `R1 = 1000`, `R2 = 1`, `O = 0`,
`c = 0`. -/
theorem radiance_valid_pixel_formula_witness :
    0 < denominatorAt 1 0 0 ∧
      radianceAt 1000 1 0 0 0 = some (1000 / (1 * (65535 - 0)) - 0) :=
  ⟨by norm_num [denominatorAt, invertedCount],
    radiance_valid_pixel_formula 1000 1 0 0 0 (by norm_num [denominatorAt, invertedCount])⟩

/-- C5 counterexample.  At `R2 = 1`, `O = -65535`, `c = 0` the spec's
denominator `R2 * ((65535 - c) + O)` is `0`, hence non-positive, so the
claim demands the NaN sentinel; but the code's denominator is
`R2 * ((65535 - O - c) + O) = 65535 > 0` and the code produces the finite
value `1 / 65535` (with `R1 = 1`, `F = 0`). -/
theorem radiance_invalid_pixel_spec_counterexample :
    specDenominator 1 (-65535) 0 ≤ 0 ∧
      radianceAt 1 1 (-65535) 0 0 = some (1 / 65535) := by
  refine ⟨by norm_num [specDenominator],
    by norm_num [radianceAt, denominatorAt, invertedCount]⟩

/-- C5 (amended): every pixel whose denominator as the code computes it,
`R2 * ((65535 - O - c) + O)`, is non-positive gets the NaN sentinel, never
a finite value and never zero. -/
theorem radiance_invalid_pixel_nan (R1 R2 O F c : ℚ)
    (h : denominatorAt R2 O c ≤ 0) :
    radianceAt R1 R2 O F c = none := by
  unfold radianceAt
  rw [if_pos h]

/-- Witness for C5's amended theorem at `c = 65535` (denominator `0`). -/
theorem radiance_invalid_pixel_nan_witness :
    denominatorAt 1 0 65535 ≤ 0 ∧ radianceAt 1 1 0 0 65535 = none :=
  ⟨by norm_num [denominatorAt, invertedCount],
    radiance_invalid_pixel_nan 1 1 0 0 65535 (by norm_num [denominatorAt, invertedCount])⟩

/-- C7: on `counts = [[0, 65535]]` with `R1 = 1000`, `R2 = 1`, `O = 0`,
`F = 0`, the reconstruction yields a 1-by-2 grid whose first element is
`1000 / 65535` (about 0.015259; with `O = 0` the code's and the spec's
formulas coincide) and whose second element is the NaN sentinel. -/
theorem scenario_counts_zero_and_full :
    reconstructGrid 1000 1 0 0 [[0, 65535]] = [[some (1000 / 65535), none]] := by
  norm_num [reconstructGrid, radianceAt, denominatorAt, invertedCount]

/-- C8: the radiance grid has exactly the shape of the count grid: the same
number of rows, and row by row the same number of elements. -/
theorem reconstruct_shape_preserved (R1 R2 O F : ℚ) (g : List (List ℕ)) :
    (reconstructGrid R1 R2 O F g).length = g.length ∧
      (reconstructGrid R1 R2 O F g).map List.length = g.map List.length := by
  unfold reconstructGrid
  constructor
  · simp
  · simp [List.map_map, Function.comp_def]

/-- C9: the reconstruction is a pure function of the metadata and the raw
counts (the modelled method reads nothing else): equal inputs give
identical outputs. -/
theorem reconstruction_deterministic (m1 m2 : List (String × ℚ))
    (r1 r2 : Option (List (List ℕ))) (hm : m1 = m2) (hr : r1 = r2) :
    compute_radiance_using_embedded_flir_approach m1 r1 =
      compute_radiance_using_embedded_flir_approach m2 r2 := by
  rw [hm, hr]

/-- Witness for C9 on a concrete metadata mapping and count grid. -/
theorem reconstruction_deterministic_witness :
    compute_radiance_using_embedded_flir_approach
        [("PlanckR1", (1 : ℚ)), ("PlanckR2", 1), ("PlanckO", 0), ("PlanckF", 0)]
        (some [[0, 65535]]) =
      compute_radiance_using_embedded_flir_approach
        [("PlanckR1", (1 : ℚ)), ("PlanckR2", 1), ("PlanckO", 0), ("PlanckF", 0)]
        (some [[0, 65535]]) :=
  reconstruction_deterministic _ _ _ _ rfl rfl

/-- C2: constructing with a non-`None` `calibration_coefficients` raises
`TypeError` — line 43 calls
`self._compute_radiance_using_calibration_coefficients(calibration_coefficients)`
but line 206 declares the method with no parameter besides `self`, so the
call itself fails before the stub body (which would have set `_radiance`
to `None`) can run; the claim that this path completes without crashing is
what the stub body clearly intended, so the signature is the slip. -/
theorem calibration_coefficients_path_raises (meta : List (String × ℚ))
    (rgb rawCounts : Option (List (List ℕ))) (coeffs : List ℚ) :
    RJPEG_init meta rgb rawCounts (some coeffs) =
      Except.error (PyError.typeError
        "_compute_radiance_using_calibration_coefficients() takes 1 positional argument but 2 were given") :=
  rfl

/-- C3 counterexample: on the empty blob the extraction returns `None`
without raising anything (lines 142-143 are `if not blob: return None`);
the claim's required `DecodeError` does not occur (no such class exists in
the source), so an empty raw-thermal payload is not an error here. -/
theorem empty_blob_counterexample :
    extract_embedded_raw_thermal_image
        (fun _ => ⟨[], DtypeOrder.native⟩) HostOrder.little [] =
      Except.ok none :=
  rfl

/-- C3 (amended): for every PIL decoder and host, an empty raw-thermal blob
makes the extraction return an absent (`None`) frame, raising no error;
downstream, the radiance then simply becomes absent as well. -/
theorem empty_blob_returns_none (pilDecode : List ℕ → RawImage)
    (host : HostOrder) :
    extract_embedded_raw_thermal_image pilDecode host [] = Except.ok none :=
  rfl

/-- C4: a metadata mapping lacking any of `PlanckR1`, `PlanckR2`, `PlanckO`,
`PlanckF` makes the reconstruction fail with the missing-key error (Python's
`KeyError`, the code's realization of the spec's `MissingCalibrationError`)
for one of the missing keys, uniformly in the count grid — the lookups at
lines 189-192 run before the per-pixel arithmetic of lines 194-202, so no
partial computation with defaults happens. -/
theorem missing_planck_key_raises (meta : List (String × ℚ))
    (g : List (List ℕ))
    (h : meta.lookup "PlanckR1" = none ∨ meta.lookup "PlanckR2" = none ∨
      meta.lookup "PlanckO" = none ∨ meta.lookup "PlanckF" = none) :
    ∃ k, meta.lookup k = none ∧
      compute_radiance_using_embedded_flir_approach meta (some g) =
        Except.error (PyError.keyError k) := by
  cases h1 : meta.lookup "PlanckR1" with
  | none =>
    exact ⟨"PlanckR1", h1,
      by simp [compute_radiance_using_embedded_flir_approach, getPlanck, h1]⟩
  | some v1 =>
    cases h2 : meta.lookup "PlanckR2" with
    | none =>
      exact ⟨"PlanckR2", h2,
        by simp [compute_radiance_using_embedded_flir_approach, getPlanck, h1, h2]⟩
    | some v2 =>
      cases h3 : meta.lookup "PlanckO" with
      | none =>
        exact ⟨"PlanckO", h3,
          by simp [compute_radiance_using_embedded_flir_approach, getPlanck, h1, h2, h3]⟩
      | some v3 =>
        cases h4 : meta.lookup "PlanckF" with
        | none =>
          exact ⟨"PlanckF", h4,
            by simp [compute_radiance_using_embedded_flir_approach, getPlanck,
              h1, h2, h3, h4]⟩
        | some v4 => simp [h1, h2, h3, h4] at h

/-- Witness for C4 on a metadata mapping missing exactly `PlanckF`. -/
theorem missing_planck_key_raises_witness :
    ∃ k, ([("PlanckR1", (1 : ℚ)), ("PlanckR2", 1), ("PlanckO", 0)]).lookup k
        = none ∧
      compute_radiance_using_embedded_flir_approach
          [("PlanckR1", (1 : ℚ)), ("PlanckR2", 1), ("PlanckO", 0)]
          (some [[0]]) =
        Except.error (PyError.keyError k) :=
  missing_planck_key_raises _ [[0]] (by simp [List.lookup])

/-- C6: two decoded raw-thermal arrays holding the same logical 16-bit
samples, one with a big-endian dtype and one with a little-endian dtype,
normalize (lines 150-157) to bit-identical arrays — same stored bytes and
same dtype — and that dtype is the host's native order, on either host. -/
theorem byte_order_normalization_canonical (host : HostOrder)
    (i1 i2 : RawImage) (h1 : i1.order = DtypeOrder.big)
    (h2 : i2.order = DtypeOrder.little)
    (hv : logicalValues host i1 = logicalValues host i2) :
    normalizeByteOrder host i1 = normalizeByteOrder host i2 ∧
      (normalizeByteOrder host i1).order =
        resolveOrder host DtypeOrder.native := by
  obtain ⟨b1, o1⟩ := i1
  obtain ⟨b2, o2⟩ := i2
  simp only at h1 h2
  subst h1
  subst h2
  have hv2 : b1.map valueBE = b2.map valueLE := by
    simpa [logicalValues, sampleValue, resolveOrder] using hv
  cases host with
  | little =>
    have e1 : normalizeByteOrder HostOrder.little ⟨b1, DtypeOrder.big⟩ =
        ⟨b1.map byteswapSample, DtypeOrder.little⟩ := rfl
    have e2 : normalizeByteOrder HostOrder.little ⟨b2, DtypeOrder.little⟩ =
        ⟨b2, DtypeOrder.little⟩ := rfl
    rw [e1, e2]
    exact ⟨by rw [map_byteswap_eq_of_values b1 b2 hv2], rfl⟩
  | big =>
    have e1 : normalizeByteOrder HostOrder.big ⟨b1, DtypeOrder.big⟩ =
        ⟨b1, DtypeOrder.big⟩ := rfl
    have e2 : normalizeByteOrder HostOrder.big ⟨b2, DtypeOrder.little⟩ =
        ⟨b2.map byteswapSample, DtypeOrder.big⟩ := rfl
    rw [e1, e2]
    exact ⟨by rw [eq_map_byteswap_of_values b1 b2 hv2], rfl⟩

/-- Witness for C6: the sample value 258 stored big-endian as (1, 2) and
little-endian as (2, 1), on a little-endian host. -/
theorem byte_order_normalization_canonical_witness :
    (RawImage.mk [(1, 2)] DtypeOrder.big).order = DtypeOrder.big ∧
      (RawImage.mk [(2, 1)] DtypeOrder.little).order = DtypeOrder.little ∧
      logicalValues HostOrder.little (RawImage.mk [(1, 2)] DtypeOrder.big) =
        logicalValues HostOrder.little
          (RawImage.mk [(2, 1)] DtypeOrder.little) ∧
      normalizeByteOrder HostOrder.little
          (RawImage.mk [(1, 2)] DtypeOrder.big) =
        normalizeByteOrder HostOrder.little
          (RawImage.mk [(2, 1)] DtypeOrder.little) ∧
      (normalizeByteOrder HostOrder.little
          (RawImage.mk [(1, 2)] DtypeOrder.big)).order =
        resolveOrder HostOrder.little DtypeOrder.native :=
  ⟨rfl, rfl, by decide,
    byte_order_normalization_canonical HostOrder.little
      (RawImage.mk [(1, 2)] DtypeOrder.big)
      (RawImage.mk [(2, 1)] DtypeOrder.little) rfl rfl (by decide)⟩

/-- C10: the guards of `write_rgb` (line 118), `write_raw_counts`
(line 164) and `write_radiance` (line 214) all evaluate the module-level
name `src`, not `self`; when no global `src` is bound, each call raises
`NameError` before any file is written, whatever data the object itself
holds. -/
theorem write_methods_read_global_src (self : RJPEGState) (path : PyPath) :
    write_rgb none self path = Except.error (PyError.nameError "src") ∧
      write_raw_counts none self path =
        Except.error (PyError.nameError "src") ∧
      write_radiance none self path =
        Except.error (PyError.nameError "src") :=
  ⟨rfl, rfl, rfl⟩
